import Mathlib

/-
Shallow embedding of the phase/timer state machine of countime.py
(break-reminder countdown application).

The embedding models the App object state that the countdown logic mutates:
current_phase, remaining_seconds, state (CountdownState), together with an
explicit count of outstanding scheduled after(1000, _tick) callbacks
(pending_ticks), the list of phase-completion events emitted so far
(completed_events, recording the phase that ended), and the number of
invocations of the screen-lock action (lock_calls).  Pure UI work
(labels, button states, toasts, the popup widgets) has no bearing on the
state machine and is omitted; the direct call self._tick() inside a
command runs the tick body immediately, while self.after(1000, self._tick)
increments pending_ticks and a later delivery of that callback
(fire_tick) consumes one pending callback and runs the tick body.
-/

namespace Countime

inductive Phase where
  | USE : Phase
  | REST : Phase
deriving DecidableEq

inductive CountdownState where
  | IDLE : CountdownState
  | RUNNING : CountdownState
  | PAUSED : CountdownState
  | LOCKED_PAUSED : CountdownState
deriving DecidableEq

/-- The persisted configuration record, modelled as a dict: every field is
optional (a json dict may lack any key); reads go through getters that
supply the same defaults the source passes to dict.get. -/
structure ConfigData where
  use_seconds : Option Int
  rest_seconds : Option Int
  popup_width : Option Int
  popup_height : Option Int
  video_path : Option String
  auto_start_countdown : Option Bool
  windows_autostart : Option Bool
  enable_tray : Option Bool
  enable_toast : Option Bool
  fullscreen_rest : Option Bool
  enable_lock_screen : Option Bool
deriving DecidableEq

/-- self.config_data.get("use_seconds", 1500) -/
def getUseSeconds (c : ConfigData) : Int := c.use_seconds.getD 1500

/-- self.config_data.get("rest_seconds", 300) -/
def getRestSeconds (c : ConfigData) : Int := c.rest_seconds.getD 300

/-- self.config_data.get("enable_lock_screen", False) -/
def getEnableLockScreen (c : ConfigData) : Bool := c.enable_lock_screen.getD false

/-- self.config_data.get("enable_toast", True) -/
def getEnableToast (c : ConfigData) : Bool := c.enable_toast.getD true

/-- self.config_data.get("fullscreen_rest", False) -/
def getFullscreenRest (c : ConfigData) : Bool := c.fullscreen_rest.getD false

/-- The default record returned by read_config when the file is missing or
unreadable (countime.py lines 104-117 and 125-138). -/
def defaultConfig : ConfigData where
  use_seconds := some 1500
  rest_seconds := some 300
  popup_width := some 600
  popup_height := some 400
  video_path := some ""
  auto_start_countdown := some true
  windows_autostart := some false
  enable_tray := some true
  enable_toast := some true
  fullscreen_rest := some false
  enable_lock_screen := some false

/-- read_config (countime.py lines 103-138).  The file system is modelled as
an argument: none when the config file does not exist, some (Except.error e)
when opening or json.load raises, some (Except.ok cfg) when parsing
succeeds.  On success the source backfills a missing enable_lock_screen
with False. -/
def read_config (file : Option (Except String ConfigData)) : ConfigData :=
  match file with
  | none => defaultConfig
  | some (Except.error _) => defaultConfig
  | some (Except.ok cfg) =>
      { cfg with enable_lock_screen := some (cfg.enable_lock_screen.getD false) }

/-- The values held by the settings widgets when the save button is pressed. -/
structure UiSettings where
  use_seconds : Int
  rest_seconds : Int
  popup_width : Int
  popup_height : Int
  video_path : String
  auto_start_countdown : Bool
  windows_autostart : Bool
  enable_tray : Bool
  enable_lock_screen : Bool
deriving DecidableEq

/-- save_settings (countime.py lines 555-584), restricted to the Config
Record it builds, writes and installs as self.config_data.  The
enable_toast and fullscreen_rest lines are commented out in the source, so
those keys are absent from the new record. -/
def save_settings (ui : UiSettings) : ConfigData where
  use_seconds := some ui.use_seconds
  rest_seconds := some ui.rest_seconds
  popup_width := some ui.popup_width
  popup_height := some ui.popup_height
  video_path := some ui.video_path
  auto_start_countdown := some ui.auto_start_countdown
  windows_autostart := some ui.windows_autostart
  enable_tray := some ui.enable_tray
  enable_toast := none
  fullscreen_rest := none
  enable_lock_screen := some ui.enable_lock_screen

/-- The mutable state of the App object that the countdown logic touches,
plus instrumentation: pending_ticks counts scheduled after(1000, _tick)
callbacks not yet delivered, completed_events records each
phase-completion emission (the phase that ended), lock_calls counts
invocations of _lock_computer. -/
structure AppState where
  config_data : ConfigData
  current_phase : Phase
  remaining_seconds : Int
  state : CountdownState
  pending_ticks : Nat
  completed_events : List Phase
  lock_calls : Nat
deriving DecidableEq

/-- The body of _tick (countime.py lines 617-630).  When not RUNNING it
returns at once; when remaining_seconds has reached 0 it moves to IDLE,
emits the phase-completion (notify + popup) and schedules nothing further;
otherwise it decrements and schedules another callback via after(1000). -/
def tick (s : AppState) : AppState :=
  if s.state ≠ CountdownState.RUNNING then s
  else if s.remaining_seconds ≤ 0 then
    { s with state := CountdownState.IDLE
             completed_events := s.completed_events ++ [s.current_phase] }
  else
    { s with remaining_seconds := s.remaining_seconds - 1
             pending_ticks := s.pending_ticks + 1 }

/-- Delivery of one scheduled after(1000, _tick) callback: consumes a
pending callback and runs the tick body. -/
def fire_tick (s : AppState) : AppState :=
  if s.pending_ticks = 0 then s
  else tick { s with pending_ticks := s.pending_ticks - 1 }

/-- start_countdown (countime.py lines 586-598): early return when already
RUNNING; otherwise refill remaining_seconds from the configured duration
of the current phase when it is ≤ 0, move to RUNNING and run _tick
immediately. -/
def start_countdown (s : AppState) : AppState :=
  if s.state = CountdownState.RUNNING then s
  else
    tick { s with
      state := CountdownState.RUNNING
      remaining_seconds :=
        if s.current_phase = Phase.USE then
          if s.remaining_seconds ≤ 0 then getUseSeconds s.config_data else s.remaining_seconds
        else
          if s.remaining_seconds ≤ 0 then getRestSeconds s.config_data else s.remaining_seconds }

/-- toggle_pause (countime.py lines 600-607): RUNNING becomes PAUSED;
PAUSED becomes RUNNING and _tick runs immediately; anything else is
untouched. -/
def toggle_pause (s : AppState) : AppState :=
  if s.state = CountdownState.RUNNING then
    { s with state := CountdownState.PAUSED }
  else if s.state = CountdownState.PAUSED then
    tick { s with state := CountdownState.RUNNING }
  else s

/-- reset_countdown (countime.py lines 609-615). -/
def reset_countdown (s : AppState) : AppState :=
  { s with state := CountdownState.IDLE
           current_phase := Phase.USE
           remaining_seconds := getUseSeconds s.config_data }

/-- _on_screen_lock (countime.py lines 248-255). -/
def on_screen_lock (s : AppState) : AppState :=
  if s.current_phase = Phase.REST ∧ s.state = CountdownState.RUNNING then
    { s with state := CountdownState.LOCKED_PAUSED }
  else s

/-- _on_screen_unlock (countime.py lines 257-275): in either LOCKED_PAUSED
branch the source first sets self.state = RUNNING and then calls
self.start_countdown(). -/
def on_screen_unlock (s : AppState) : AppState :=
  if s.current_phase = Phase.USE ∧ s.state = CountdownState.LOCKED_PAUSED then
    start_countdown { s with state := CountdownState.RUNNING }
  else if s.current_phase = Phase.REST ∧ s.state = CountdownState.LOCKED_PAUSED then
    start_countdown { s with state := CountdownState.RUNNING }
  else s

/-- _close_popup_and_start_next (countime.py lines 840-881): compute the
next phase and the lock decision from the phase that just ended (the
condition reads self.current_phase before the phase is updated), install
the next phase and its configured duration, then either invoke the lock
action (_lock_computer), force state to RUNNING and run _tick, or call
start_countdown normally. -/
def close_popup_and_start_next (s : AppState) : AppState :=
  if getEnableLockScreen s.config_data = true ∧ s.current_phase = Phase.USE then
    tick { s with
      current_phase := if s.current_phase = Phase.USE then Phase.REST else Phase.USE
      remaining_seconds :=
        if (if s.current_phase = Phase.USE then Phase.REST else Phase.USE) = Phase.REST
        then getRestSeconds s.config_data else getUseSeconds s.config_data
      state := CountdownState.RUNNING
      lock_calls := s.lock_calls + 1 }
  else
    start_countdown { s with
      current_phase := if s.current_phase = Phase.USE then Phase.REST else Phase.USE
      remaining_seconds :=
        if (if s.current_phase = Phase.USE then Phase.REST else Phase.USE) = Phase.REST
        then getRestSeconds s.config_data else getUseSeconds s.config_data }

/-- The events that can reach the Timer Session: the three user commands,
delivery of a scheduled tick callback, the two OS session signals, and the
popup acknowledgement. -/
inductive Ev where
  | startCmd : Ev
  | pauseCmd : Ev
  | resetCmd : Ev
  | fireTick : Ev
  | lockSig : Ev
  | unlockSig : Ev
  | ackCmd : Ev
deriving DecidableEq

def stepEv (s : AppState) (e : Ev) : AppState :=
  match e with
  | Ev.startCmd => start_countdown s
  | Ev.pauseCmd => toggle_pause s
  | Ev.resetCmd => reset_countdown s
  | Ev.fireTick => fire_tick s
  | Ev.lockSig => on_screen_lock s
  | Ev.unlockSig => on_screen_unlock s
  | Ev.ackCmd => close_popup_and_start_next s

def runEvents (s : AppState) (es : List Ev) : AppState :=
  es.foldl stepEv s

/-- Initial App state (countime.py lines 191-196): phase USE, remaining
time the configured use duration, state IDLE, no callback scheduled. -/
def initApp (cfg : ConfigData) : AppState where
  config_data := cfg
  current_phase := Phase.USE
  remaining_seconds := getUseSeconds cfg
  state := CountdownState.IDLE
  pending_ticks := 0
  completed_events := []
  lock_calls := 0

/-- A configuration with a one-second use phase and a two-second rest
phase, all other keys absent. -/
def cfgShort : ConfigData where
  use_seconds := some 1
  rest_seconds := some 2
  popup_width := none
  popup_height := none
  video_path := none
  auto_start_countdown := none
  windows_autostart := none
  enable_tray := none
  enable_toast := none
  fullscreen_rest := none
  enable_lock_screen := none

/-- A configuration with a ten-second use phase. -/
def cfgTen : ConfigData where
  use_seconds := some 10
  rest_seconds := some 3
  popup_width := none
  popup_height := none
  video_path := none
  auto_start_countdown := none
  windows_autostart := none
  enable_tray := none
  enable_toast := none
  fullscreen_rest := none
  enable_lock_screen := none

/-- A configuration with a five-second use phase, as in the spec scenario. -/
def cfgFive : ConfigData where
  use_seconds := some 5
  rest_seconds := some 3
  popup_width := none
  popup_height := none
  video_path := none
  auto_start_countdown := none
  windows_autostart := none
  enable_tray := none
  enable_toast := none
  fullscreen_rest := none
  enable_lock_screen := none

/-- Both configured durations are at least one second, as §3 of the spec
requires of a Config Record. -/
def durationsOk (c : ConfigData) : Prop :=
  1 ≤ getUseSeconds c ∧ 1 ≤ getRestSeconds c

/-- The inductive invariant for the Timer Session: the configured
durations are positive and the remaining time is never negative. -/
def remInv (s : AppState) : Prop :=
  durationsOk s.config_data ∧ 0 ≤ s.remaining_seconds

/-- A running USE-phase session, used as a concrete witness state. -/
def sUseRunning : AppState where
  config_data := cfgShort
  current_phase := Phase.USE
  remaining_seconds := 5
  state := CountdownState.RUNNING
  pending_ticks := 1
  completed_events := []
  lock_calls := 0

/-- A running REST-phase session, used as a concrete witness state. -/
def sRestRunning : AppState where
  config_data := cfgShort
  current_phase := Phase.REST
  remaining_seconds := 4
  state := CountdownState.RUNNING
  pending_ticks := 1
  completed_events := []
  lock_calls := 0

/-- An idle USE-phase session, used as a concrete witness state. -/
def sIdleUse : AppState where
  config_data := cfgShort
  current_phase := Phase.USE
  remaining_seconds := 1
  state := CountdownState.IDLE
  pending_ticks := 0
  completed_events := []
  lock_calls := 0

/-- A REST-phase session paused by a screen lock, used as a concrete
witness state. -/
def sLockedRest : AppState where
  config_data := cfgShort
  current_phase := Phase.REST
  remaining_seconds := 2
  state := CountdownState.LOCKED_PAUSED
  pending_ticks := 0
  completed_events := []
  lock_calls := 0

/-- A running USE-phase session whose remaining time has reached zero,
used as a concrete witness state. -/
def sRunZero : AppState where
  config_data := cfgShort
  current_phase := Phase.USE
  remaining_seconds := 0
  state := CountdownState.RUNNING
  pending_ticks := 1
  completed_events := []
  lock_calls := 0

theorem durationsOk_cfgShort : durationsOk cfgShort :=
  ⟨by decide, by decide⟩

theorem tick_remInv (s : AppState) (h : remInv s) : remInv (tick s) := by
  obtain ⟨hd, hr⟩ := h
  unfold tick
  split
  · exact ⟨hd, hr⟩
  · split
    · exact ⟨hd, hr⟩
    · next h2 =>
        refine ⟨hd, ?_⟩
        show (0 : Int) ≤ s.remaining_seconds - 1
        omega

theorem start_remInv (s : AppState) (h : remInv s) : remInv (start_countdown s) := by
  obtain ⟨hd, hr⟩ := h
  have h1 := hd.1
  have h2 := hd.2
  unfold start_countdown
  split
  · exact ⟨hd, hr⟩
  · apply tick_remInv
    refine ⟨hd, ?_⟩
    show (0 : Int) ≤
      if s.current_phase = Phase.USE then
        if s.remaining_seconds ≤ 0 then getUseSeconds s.config_data else s.remaining_seconds
      else
        if s.remaining_seconds ≤ 0 then getRestSeconds s.config_data else s.remaining_seconds
    split
    · split <;> omega
    · split <;> omega

theorem toggle_remInv (s : AppState) (h : remInv s) : remInv (toggle_pause s) := by
  obtain ⟨hd, hr⟩ := h
  unfold toggle_pause
  split
  · exact ⟨hd, hr⟩
  · split
    · exact tick_remInv _ ⟨hd, hr⟩
    · exact ⟨hd, hr⟩

theorem reset_remInv (s : AppState) (h : remInv s) : remInv (reset_countdown s) := by
  obtain ⟨hd, _⟩ := h
  have h1 := hd.1
  refine ⟨hd, ?_⟩
  show (0 : Int) ≤ getUseSeconds s.config_data
  omega

theorem fire_remInv (s : AppState) (h : remInv s) : remInv (fire_tick s) := by
  obtain ⟨hd, hr⟩ := h
  unfold fire_tick
  split
  · exact ⟨hd, hr⟩
  · exact tick_remInv _ ⟨hd, hr⟩

theorem lock_remInv (s : AppState) (h : remInv s) : remInv (on_screen_lock s) := by
  obtain ⟨hd, hr⟩ := h
  unfold on_screen_lock
  split
  · exact ⟨hd, hr⟩
  · exact ⟨hd, hr⟩

theorem unlock_remInv (s : AppState) (h : remInv s) : remInv (on_screen_unlock s) := by
  obtain ⟨hd, hr⟩ := h
  unfold on_screen_unlock
  split
  · exact start_remInv _ ⟨hd, hr⟩
  · split
    · exact start_remInv _ ⟨hd, hr⟩
    · exact ⟨hd, hr⟩

theorem ack_remInv (s : AppState) (h : remInv s) : remInv (close_popup_and_start_next s) := by
  obtain ⟨hd, hr⟩ := h
  have h1 := hd.1
  have h2 := hd.2
  unfold close_popup_and_start_next
  split
  · apply tick_remInv
    refine ⟨hd, ?_⟩
    show (0 : Int) ≤
      if (if s.current_phase = Phase.USE then Phase.REST else Phase.USE) = Phase.REST
      then getRestSeconds s.config_data else getUseSeconds s.config_data
    split <;> omega
  · apply start_remInv
    refine ⟨hd, ?_⟩
    show (0 : Int) ≤
      if (if s.current_phase = Phase.USE then Phase.REST else Phase.USE) = Phase.REST
      then getRestSeconds s.config_data else getUseSeconds s.config_data
    split <;> omega

theorem step_remInv (s : AppState) (e : Ev) (h : remInv s) : remInv (stepEv s e) := by
  cases e
  · exact start_remInv s h
  · exact toggle_remInv s h
  · exact reset_remInv s h
  · exact fire_remInv s h
  · exact lock_remInv s h
  · exact unlock_remInv s h
  · exact ack_remInv s h

theorem run_remInv (es : List Ev) (s : AppState) (h : remInv s) :
    remInv (runEvents s es) := by
  induction es generalizing s with
  | nil => exact h
  | cons e es ih => exact ih (stepEv s e) (step_remInv s e h)

theorem tick_running_pos (t : AppState) (h : t.state = CountdownState.RUNNING)
    (hr : 0 < t.remaining_seconds) :
    tick t = { t with remaining_seconds := t.remaining_seconds - 1
                      pending_ticks := t.pending_ticks + 1 } := by
  unfold tick
  rw [if_neg (fun hc => hc h), if_neg (by omega)]

theorem tick_state_of_pos (t : AppState) (hr : 0 < t.remaining_seconds) :
    (tick t).state = t.state := by
  unfold tick
  split
  · rfl
  · rw [if_neg (by omega)]

/-- C1: with use_seconds = 1 and rest_seconds = 2, the session is started,
its USE phase completes, the popup is acknowledged (REST starts running),
the screen locks during REST and the one pending tick callback fires as a
no-op while locked.  The unlock signal then moves the state to RUNNING and
preserves remaining_seconds = 1 (the value held at lock time), but leaves
pending_ticks = 0: _on_screen_unlock sets self.state = RUNNING before
calling self.start_countdown(), whose RUNNING guard returns immediately,
so no new tick callback is ever scheduled and two further tick deliveries
leave remaining_seconds unchanged — ticking does not resume.  The first
conjunct shows the contrast: without a lock, a tick delivery does
decrement the REST countdown. -/
theorem c1_unlock_leaves_tick_loop_dead :
    (runEvents (initApp cfgShort)
      [Ev.startCmd, Ev.fireTick, Ev.ackCmd, Ev.fireTick]).remaining_seconds = 0 ∧
    (runEvents (initApp cfgShort)
      [Ev.startCmd, Ev.fireTick, Ev.ackCmd, Ev.lockSig]).state =
        CountdownState.LOCKED_PAUSED ∧
    (runEvents (initApp cfgShort)
      [Ev.startCmd, Ev.fireTick, Ev.ackCmd, Ev.lockSig]).remaining_seconds = 1 ∧
    (runEvents (initApp cfgShort)
      [Ev.startCmd, Ev.fireTick, Ev.ackCmd, Ev.lockSig, Ev.fireTick,
       Ev.unlockSig]).state = CountdownState.RUNNING ∧
    (runEvents (initApp cfgShort)
      [Ev.startCmd, Ev.fireTick, Ev.ackCmd, Ev.lockSig, Ev.fireTick,
       Ev.unlockSig]).remaining_seconds = 1 ∧
    (runEvents (initApp cfgShort)
      [Ev.startCmd, Ev.fireTick, Ev.ackCmd, Ev.lockSig, Ev.fireTick,
       Ev.unlockSig]).pending_ticks = 0 ∧
    (runEvents (initApp cfgShort)
      [Ev.startCmd, Ev.fireTick, Ev.ackCmd, Ev.lockSig, Ev.fireTick,
       Ev.unlockSig, Ev.fireTick, Ev.fireTick]).remaining_seconds = 1 := by
  decide

/-- C2: nothing in countime.py ever cancels a scheduled after(1000, _tick)
callback.  After start then reset, the callback scheduled by start is
still outstanding (pending_ticks = 1).  With use_seconds = 10, a start
followed by a quick pause and resume leaves the session RUNNING with two
outstanding callbacks — two live tick chains — and remaining_seconds = 8;
the two deliveries, due within the same one-second period, drop
remaining_seconds to 6, a decrement of 2 in one tick period. -/
theorem c2_stale_ticks_not_cancelled_double_decrement :
    (runEvents (initApp cfgTen) [Ev.startCmd, Ev.resetCmd]).pending_ticks = 1 ∧
    (runEvents (initApp cfgTen)
      [Ev.startCmd, Ev.pauseCmd, Ev.pauseCmd]).state = CountdownState.RUNNING ∧
    (runEvents (initApp cfgTen)
      [Ev.startCmd, Ev.pauseCmd, Ev.pauseCmd]).pending_ticks = 2 ∧
    (runEvents (initApp cfgTen)
      [Ev.startCmd, Ev.pauseCmd, Ev.pauseCmd]).remaining_seconds = 8 ∧
    (runEvents (initApp cfgTen)
      [Ev.startCmd, Ev.pauseCmd, Ev.pauseCmd, Ev.fireTick,
       Ev.fireTick]).remaining_seconds = 6 := by
  decide

/-- C3: with use_seconds = 5, starting the Engine (whose immediate _tick
consumes the first second) and delivering the five scheduled tick
callbacks yields exactly one phase-completion event, for the USE phase;
the session is then IDLE with no callback outstanding, so no sixth tick
can apply.  In general, whenever the tick body runs while RUNNING with
remaining_seconds at 0, exactly one completion event is appended, the
state leaves RUNNING for IDLE, and no further tick is scheduled
(pending_ticks is not incremented). -/
theorem c3_five_ticks_one_completion :
    ((runEvents (initApp cfgFive)
        [Ev.startCmd, Ev.fireTick, Ev.fireTick, Ev.fireTick, Ev.fireTick,
         Ev.fireTick]).completed_events = [Phase.USE] ∧
     (runEvents (initApp cfgFive)
        [Ev.startCmd, Ev.fireTick, Ev.fireTick, Ev.fireTick, Ev.fireTick,
         Ev.fireTick]).state = CountdownState.IDLE ∧
     (runEvents (initApp cfgFive)
        [Ev.startCmd, Ev.fireTick, Ev.fireTick, Ev.fireTick, Ev.fireTick,
         Ev.fireTick]).pending_ticks = 0) ∧
    (∀ s : AppState, s.state = CountdownState.RUNNING → s.remaining_seconds ≤ 0 →
      (tick s).completed_events = s.completed_events ++ [s.current_phase] ∧
      (tick s).state = CountdownState.IDLE ∧
      (tick s).pending_ticks = s.pending_ticks) := by
  constructor
  · exact ⟨by decide, by decide, by decide⟩
  · intro s h1 h2
    unfold tick
    rw [if_neg (by rw [h1]; exact fun hc => hc rfl), if_pos h2]
    exact ⟨rfl, rfl, rfl⟩

/-- C3 witness: the general conjunct applied to the concrete running state
sRunZero with remaining_seconds = 0. -/
theorem c3_five_ticks_one_completion_witness :
    (tick sRunZero).completed_events = [Phase.USE] ∧
    (tick sRunZero).state = CountdownState.IDLE :=
  ⟨by
    have h := (c3_five_ticks_one_completion.2 sRunZero rfl (by decide)).1
    simpa using h,
   (c3_five_ticks_one_completion.2 sRunZero rfl (by decide)).2.1⟩

/-- C4: from the initial session of a configuration whose durations are at
least one second, every sequence of commands, tick deliveries, lock and
unlock signals and acknowledgements keeps remaining_seconds nonnegative,
and the run state is always one of the four defined values.  This covers
in particular all interleavings of start, pause_or_resume, reset and
tick. -/
theorem c4_remaining_nonneg_state_defined (cfg : ConfigData) (es : List Ev)
    (hu : 1 ≤ getUseSeconds cfg) (hr : 1 ≤ getRestSeconds cfg) :
    0 ≤ (runEvents (initApp cfg) es).remaining_seconds ∧
    ((runEvents (initApp cfg) es).state = CountdownState.IDLE ∨
     (runEvents (initApp cfg) es).state = CountdownState.RUNNING ∨
     (runEvents (initApp cfg) es).state = CountdownState.PAUSED ∨
     (runEvents (initApp cfg) es).state = CountdownState.LOCKED_PAUSED) := by
  have h : remInv (runEvents (initApp cfg) es) := by
    apply run_remInv
    refine ⟨⟨hu, hr⟩, ?_⟩
    show (0 : Int) ≤ getUseSeconds cfg
    omega
  refine ⟨h.2, ?_⟩
  cases (runEvents (initApp cfg) es).state
  · exact Or.inl rfl
  · exact Or.inr (Or.inl rfl)
  · exact Or.inr (Or.inr (Or.inl rfl))
  · exact Or.inr (Or.inr (Or.inr rfl))

/-- C4 witness: the invariant evaluated at the default configuration after
a start command and one tick delivery. -/
theorem c4_remaining_nonneg_state_defined_witness :
    0 ≤ (runEvents (initApp defaultConfig)
          [Ev.startCmd, Ev.fireTick]).remaining_seconds ∧
    ((runEvents (initApp defaultConfig) [Ev.startCmd, Ev.fireTick]).state =
        CountdownState.IDLE ∨
     (runEvents (initApp defaultConfig) [Ev.startCmd, Ev.fireTick]).state =
        CountdownState.RUNNING ∨
     (runEvents (initApp defaultConfig) [Ev.startCmd, Ev.fireTick]).state =
        CountdownState.PAUSED ∨
     (runEvents (initApp defaultConfig) [Ev.startCmd, Ev.fireTick]).state =
        CountdownState.LOCKED_PAUSED) :=
  c4_remaining_nonneg_state_defined defaultConfig [Ev.startCmd, Ev.fireTick]
    (by decide) (by decide)

/-- C5 counterexample: reach LOCKED_PAUSED in the REST phase (use = 1,
rest = 2: start, phase completes, acknowledge, lock), then issue a start
command.  start_countdown only guards against RUNNING, so the session
leaves LOCKED_PAUSED for RUNNING — start while LOCKED_PAUSED is not a
no-op, refuting the claim as stated. -/
theorem c5_start_in_locked_paused_not_noop :
    (runEvents (initApp cfgShort)
      [Ev.startCmd, Ev.fireTick, Ev.ackCmd, Ev.lockSig]).state =
        CountdownState.LOCKED_PAUSED ∧
    (runEvents (initApp cfgShort)
      [Ev.startCmd, Ev.fireTick, Ev.ackCmd, Ev.lockSig, Ev.startCmd]).state =
        CountdownState.RUNNING := by
  decide

/-- C5 amended: the unlisted (RunState, Event) combinations are no-ops for
pause_or_resume (in IDLE or LOCKED_PAUSED), for the tick body (whenever
not RUNNING), for the lock signal (except in (REST, RUNNING)) and for the
unlock signal (except in LOCKED_PAUSED); but the start command is a no-op
only while RUNNING: issued while LOCKED_PAUSED it moves the session to
RUNNING (with positive configured durations), because start_countdown
guards only against RUNNING.  The engine does not restrict LOCKED_PAUSED
resumption to the unlock signal; the source only disables the start
button in the locked window, a restriction the tray start command does
not share. -/
theorem c5_noop_table_amended (s : AppState) :
    ((s.state = CountdownState.IDLE ∨ s.state = CountdownState.LOCKED_PAUSED) →
      toggle_pause s = s) ∧
    (s.state ≠ CountdownState.RUNNING → tick s = s) ∧
    (¬ (s.current_phase = Phase.REST ∧ s.state = CountdownState.RUNNING) →
      on_screen_lock s = s) ∧
    (s.state ≠ CountdownState.LOCKED_PAUSED → on_screen_unlock s = s) ∧
    (durationsOk s.config_data → s.state = CountdownState.LOCKED_PAUSED →
      (start_countdown s).state = CountdownState.RUNNING) := by
  refine ⟨?_, ?_, ?_, ?_, ?_⟩
  · intro h
    unfold toggle_pause
    cases h with
    | inl h => rw [h, if_neg (by decide), if_neg (by decide)]
    | inr h => rw [h, if_neg (by decide), if_neg (by decide)]
  · intro h
    unfold tick
    rw [if_pos h]
  · intro h
    unfold on_screen_lock
    rw [if_neg h]
  · intro h
    unfold on_screen_unlock
    rw [if_neg (fun hc => h hc.2), if_neg (fun hc => h hc.2)]
  · intro hd h
    have h1 := hd.1
    have h2 := hd.2
    have hne : s.state ≠ CountdownState.RUNNING := by
      rw [h]
      exact fun hc => CountdownState.noConfusion hc
    unfold start_countdown
    rw [if_neg hne, tick_state_of_pos]
    show (0 : Int) <
      if s.current_phase = Phase.USE then
        if s.remaining_seconds ≤ 0 then getUseSeconds s.config_data else s.remaining_seconds
      else
        if s.remaining_seconds ≤ 0 then getRestSeconds s.config_data else s.remaining_seconds
    split
    · split <;> omega
    · split <;> omega

/-- C5 amended witness: both amended behaviors evaluated at the concrete
LOCKED_PAUSED REST-phase state sLockedRest. -/
theorem c5_noop_table_amended_witness :
    toggle_pause sLockedRest = sLockedRest ∧
    (start_countdown sLockedRest).state = CountdownState.RUNNING :=
  ⟨(c5_noop_table_amended sLockedRest).1 (Or.inr rfl),
   (c5_noop_table_amended sLockedRest).2.2.2.2 durationsOk_cfgShort rfl⟩

/-- C6: a lock signal in (Phase = REST, RunState = RUNNING) moves the
session to LOCKED_PAUSED without touching remaining_seconds or the phase;
in every other combination — in particular whenever Phase = USE — the
handler leaves the whole session unchanged. -/
theorem c6_lock_signal_rest_running_only (s : AppState) :
    (s.current_phase = Phase.REST ∧ s.state = CountdownState.RUNNING →
      (on_screen_lock s).state = CountdownState.LOCKED_PAUSED ∧
      (on_screen_lock s).remaining_seconds = s.remaining_seconds ∧
      (on_screen_lock s).current_phase = s.current_phase) ∧
    (¬ (s.current_phase = Phase.REST ∧ s.state = CountdownState.RUNNING) →
      on_screen_lock s = s) ∧
    (s.current_phase = Phase.USE → on_screen_lock s = s) := by
  refine ⟨?_, ?_, ?_⟩
  · intro h
    unfold on_screen_lock
    rw [if_pos h]
    exact ⟨rfl, rfl, rfl⟩
  · intro h
    unfold on_screen_lock
    rw [if_neg h]
  · intro h
    unfold on_screen_lock
    rw [if_neg (fun hc => by rw [h] at hc; exact Phase.noConfusion hc.1)]

/-- C6 witness: the lock signal applied to the concrete states
sRestRunning (pauses to LOCKED_PAUSED) and sUseRunning (no-op). -/
theorem c6_lock_signal_rest_running_only_witness :
    (on_screen_lock sRestRunning).state = CountdownState.LOCKED_PAUSED ∧
    on_screen_lock sUseRunning = sUseRunning :=
  ⟨((c6_lock_signal_rest_running_only sRestRunning).1 ⟨rfl, rfl⟩).1,
   (c6_lock_signal_rest_running_only sUseRunning).2.2 rfl⟩

/-- C7: on popup acknowledgement (the session sits at IDLE after a phase
completed, durations ≥ 1), the Coordinator sets the phase to the other
phase, restarts the countdown so the session is RUNNING, and the
remaining time equals the configured duration of the next phase minus the
one second consumed by the immediate _tick inside the restart (i.e.
remaining_seconds was set to the configured duration and ticking resumed
from it); the screen-lock action is invoked exactly once when the
lock-screen toggle is enabled and the phase that ended is USE, and never
otherwise — in particular never on the REST→USE edge. -/
theorem c7_ack_next_phase_and_lock_edge (s : AppState)
    (h : s.state = CountdownState.IDLE)
    (hu : 1 ≤ getUseSeconds s.config_data)
    (hr : 1 ≤ getRestSeconds s.config_data) :
    (close_popup_and_start_next s).current_phase =
      (if s.current_phase = Phase.USE then Phase.REST else Phase.USE) ∧
    (close_popup_and_start_next s).state = CountdownState.RUNNING ∧
    (close_popup_and_start_next s).remaining_seconds =
      (if s.current_phase = Phase.USE then getRestSeconds s.config_data
       else getUseSeconds s.config_data) - 1 ∧
    (close_popup_and_start_next s).lock_calls =
      s.lock_calls +
        (if getEnableLockScreen s.config_data = true ∧ s.current_phase = Phase.USE
         then 1 else 0) := by
  have hne : s.state ≠ CountdownState.RUNNING := by
    rw [h]
    exact fun hc => CountdownState.noConfusion hc
  have hrpos : ¬ (getRestSeconds s.config_data ≤ 0) := by omega
  have hupos : ¬ (getUseSeconds s.config_data ≤ 0) := by omega
  rcases hp : s.current_phase with _ | _ <;>
    by_cases hl : getEnableLockScreen s.config_data = true <;>
      simp only [close_popup_and_start_next, start_countdown, tick, hp, hl, hne,
        ite_self, if_true, if_false, reduceCtorEq, reduceIte, not_false_eq_true,
        not_true_eq_false, and_true, and_false, true_and, false_and, ite_true,
        ite_false, hrpos, hupos, ne_eq, not_not, and_self] <;>
      omega

/-- C7 witness: the acknowledgement evaluated at the concrete idle
USE-phase state sIdleUse. -/
theorem c7_ack_next_phase_and_lock_edge_witness :
    (close_popup_and_start_next sIdleUse).current_phase =
      (if sIdleUse.current_phase = Phase.USE then Phase.REST else Phase.USE) ∧
    (close_popup_and_start_next sIdleUse).state = CountdownState.RUNNING ∧
    (close_popup_and_start_next sIdleUse).remaining_seconds =
      (if sIdleUse.current_phase = Phase.USE then getRestSeconds sIdleUse.config_data
       else getUseSeconds sIdleUse.config_data) - 1 ∧
    (close_popup_and_start_next sIdleUse).lock_calls =
      sIdleUse.lock_calls +
        (if getEnableLockScreen sIdleUse.config_data = true ∧
            sIdleUse.current_phase = Phase.USE
         then 1 else 0) :=
  c7_ack_next_phase_and_lock_edge sIdleUse rfl (by decide) (by decide)

/-- C8: a start command while RUNNING returns before touching anything, so
the whole Timer Session is unchanged; a pause_or_resume while IDLE falls
through both branches of toggle_pause and is likewise the identity. -/
theorem c8_redundant_commands_identity (s : AppState) :
    (s.state = CountdownState.RUNNING → start_countdown s = s) ∧
    (s.state = CountdownState.IDLE → toggle_pause s = s) := by
  constructor
  · intro h
    unfold start_countdown
    rw [if_pos h]
  · intro h
    unfold toggle_pause
    rw [h, if_neg (by decide), if_neg (by decide)]

/-- C8 witness: both identities evaluated at the concrete states
sUseRunning and sIdleUse. -/
theorem c8_redundant_commands_identity_witness :
    start_countdown sUseRunning = sUseRunning ∧
    toggle_pause sIdleUse = sIdleUse :=
  ⟨(c8_redundant_commands_identity sUseRunning).1 rfl,
   (c8_redundant_commands_identity sIdleUse).2 rfl⟩

/-- C9: read_config returns the full default record both when the config
file is missing and when opening or parsing it raises, so startup never
fails on configuration; the defaults include use_seconds = 1500 and
rest_seconds = 300. -/
theorem c9_read_config_total_defaults :
    read_config none = defaultConfig ∧
    (∀ e : String, read_config (some (Except.error e)) = defaultConfig) ∧
    defaultConfig.use_seconds = some 1500 ∧
    defaultConfig.rest_seconds = some 300 :=
  ⟨rfl, fun _ => rfl, rfl, rfl⟩

/-- C9 witness: the error case evaluated at a concrete parse error. -/
theorem c9_read_config_total_defaults_witness :
    read_config (some (Except.error "bad json")) = defaultConfig :=
  c9_read_config_total_defaults.2.1 "bad json"

/-- C10: the record built and installed by save_settings carries no
enable_toast and no fullscreen_rest key (those lines are commented out in
the source), so every later read of these toggles through dict.get falls
back to the defaults True and False — any previously persisted values are
discarded — while all other fields are taken from the UI values. -/
theorem c10_save_settings_drops_hidden_toggles (ui : UiSettings) :
    (save_settings ui).enable_toast = none ∧
    (save_settings ui).fullscreen_rest = none ∧
    getEnableToast (save_settings ui) = true ∧
    getFullscreenRest (save_settings ui) = false ∧
    (save_settings ui).use_seconds = some ui.use_seconds ∧
    (save_settings ui).rest_seconds = some ui.rest_seconds ∧
    (save_settings ui).popup_width = some ui.popup_width ∧
    (save_settings ui).popup_height = some ui.popup_height ∧
    (save_settings ui).video_path = some ui.video_path ∧
    (save_settings ui).auto_start_countdown = some ui.auto_start_countdown ∧
    (save_settings ui).windows_autostart = some ui.windows_autostart ∧
    (save_settings ui).enable_tray = some ui.enable_tray ∧
    (save_settings ui).enable_lock_screen = some ui.enable_lock_screen :=
  ⟨rfl, rfl, rfl, rfl, rfl, rfl, rfl, rfl, rfl, rfl, rfl, rfl, rfl⟩

/-- C10 witness: the saved record evaluated at a concrete set of UI
values with fullscreen_rest previously true in the persisted state. -/
theorem c10_save_settings_drops_hidden_toggles_witness :
    getEnableToast (save_settings
      ⟨25, 5, 600, 400, "", true, false, true, true⟩) = true ∧
    getFullscreenRest (save_settings
      ⟨25, 5, 600, 400, "", true, false, true, true⟩) = false :=
  ⟨(c10_save_settings_drops_hidden_toggles
      ⟨25, 5, 600, 400, "", true, false, true, true⟩).2.2.1,
   (c10_save_settings_drops_hidden_toggles
      ⟨25, 5, 600, 400, "", true, false, true, true⟩).2.2.2.1⟩

end Countime
